import Mathlib

/-!
Verification of the NAT64 DNS server `nat64dns.py`.

The Python source is shallowly embedded: strings are handled as `List Char`,
Python's unbounded `int` is `ℤ` (with `ℕ` where a value is provably
non-negative), `None`/exception outcomes become `Option`/`Except`.  File-system
and DNS-codec boundaries (declared external collaborators in the design
document) are abstracted as explicit inputs.
-/

deriving instance DecidableEq for Except

namespace Nat64

/-! ### Python primitives

Helpers mirroring the exact semantics of the Python library calls used by
`nat64dns.py` (`str.lower`, `str.rstrip`, `str.split`, `int(s, 16)`,
`ipaddress.IPv4Address`, and bitwise `|`, `<<` on Python ints). -/

/-- ASCII whitespace stripped by Python's `str.strip()` / `int()` conversion
(space, tab, newline, carriage return, vertical tab, form feed).  Non-ASCII
Unicode whitespace and digit forms are not modelled. -/
def isPySpace (c : Char) : Bool :=
  c == ' ' || c == '\t' || c == '\n' || c == '\r' || c == '\x0b' || c == '\x0c'

/-- Python `s.strip()` on a character list. -/
def pyStrip (cs : List Char) : List Char :=
  ((cs.dropWhile isPySpace).reverse.dropWhile isPySpace).reverse

/-- Python `s.rstrip(".")`: remove all trailing dots. -/
def rstripDots (cs : List Char) : List Char :=
  (cs.reverse.dropWhile (· == '.')).reverse

/-- Python `s.split(sep)` for a one-character separator: splits at every
occurrence, keeping empty pieces (`"".split(".") == [""]`). -/
def splitOnChar (sep : Char) : List Char → List (List Char)
  | [] => [[]]
  | a :: rest =>
    let r := splitOnChar sep rest
    if a == sep then [] :: r
    else
      match r with
      | h :: t => (a :: h) :: t
      | [] => [[a]]

/-- Helper for Python's whitespace `str.split()` (no argument): accumulates the
current word (reversed) and splits on whitespace runs, dropping empty pieces. -/
def splitWsAux : List Char → List Char → List (List Char)
  | [], acc => if acc.isEmpty then [] else [acc.reverse]
  | c :: rest, acc =>
    if isPySpace c then
      if acc.isEmpty then splitWsAux rest []
      else acc.reverse :: splitWsAux rest []
    else splitWsAux rest (c :: acc)

/-- Python `s.split()` (whitespace split, empties dropped). -/
def pySplitWs (cs : List Char) : List (List Char) :=
  splitWsAux cs []

/-- Hexadecimal digit value, if any (ASCII only, both cases). -/
def hexDigitVal? (c : Char) : Option ℕ :=
  if '0' ≤ c ∧ c ≤ '9' then some (c.toNat - '0'.toNat)
  else if 'a' ≤ c ∧ c ≤ 'f' then some (c.toNat - 'a'.toNat + 10)
  else if 'A' ≤ c ∧ c ≤ 'F' then some (c.toNat - 'A'.toNat + 10)
  else none

/-- Hex digit run with CPython's underscore rule: a single `_` may appear
between two digits, never doubled or trailing. -/
def hexCore : List Char → ℕ → Option ℕ
  | [], acc => some acc
  | '_' :: rest, acc =>
    match rest with
    | c :: rest2 =>
      match hexDigitVal? c with
      | some v => hexCore rest2 (acc * 16 + v)
      | none => none
    | [] => none
  | c :: rest, acc =>
    match hexDigitVal? c with
    | some v => hexCore rest (acc * 16 + v)
    | none => none

/-- At least one hex digit, then `hexCore` (no leading underscore). -/
def parseHexDigits (cs : List Char) : Option ℕ :=
  match cs with
  | [] => none
  | c :: rest =>
    match hexDigitVal? c with
    | some v => hexCore rest v
    | none => none

/-- Strip an optional `0x`/`0X` base marker, after which CPython also allows a
single underscore (`int("0x_1", 16) == 1`). -/
def strip0x : List Char → List Char
  | '0' :: c :: r =>
    if c == 'x' || c == 'X' then
      match r with
      | '_' :: r2 => r2
      | _ => r
    else '0' :: c :: r
  | r => r

/-- Python `int(s, 16)` as `Option ℤ` (`none` = `ValueError`): surrounding
whitespace, an optional sign, an optional `0x`/`0X` marker, then hex digits
with single underscores allowed between digits.  Note the result can be
negative (`int("-1", 16) == -1`). -/
def pyIntHex (s : List Char) : Option ℤ :=
  match pyStrip s with
  | '+' :: r => (parseHexDigits (strip0x r)).map (fun n => (n : ℤ))
  | '-' :: r => (parseHexDigits (strip0x r)).map (fun n => -(n : ℤ))
  | r => (parseHexDigits (strip0x r)).map (fun n => (n : ℤ))

/-- Decimal value of a digit run (used for IPv4 octets). -/
def digitsVal (cs : List Char) : ℕ :=
  cs.foldl (fun acc c => acc * 10 + (c.toNat - '0'.toNat)) 0

/-- One dotted-quad octet, per CPython `ipaddress._parse_octet`: 1–3 ASCII
decimal digits, no leading zero on a multi-digit octet, value at most 255. -/
def parseOctet (cs : List Char) : Option ℕ :=
  match cs with
  | [] => none
  | c :: rest =>
    if ¬ (c :: rest).all Char.isDigit then none
    else if (c :: rest).length > 3 then none
    else if c == '0' ∧ rest ≠ [] then none
    else
      let v := digitsVal (c :: rest)
      if v > 255 then none else some v

/-- Python `int(ipaddress.IPv4Address(s))` as `Option ℕ` (`none` =
`AddressValueError`): exactly four octets, value is the big-endian 32-bit
integer. -/
def parseIPv4 (cs : List Char) : Option ℕ :=
  match splitOnChar '.' cs with
  | [a, b, c, d] =>
    match parseOctet a, parseOctet b, parseOctet c, parseOctet d with
    | some oa, some ob, some oc, some od =>
      some (oa * 16777216 + ob * 65536 + oc * 256 + od)
    | _, _, _, _ => none
  | _ => none

/-- Python `<<` on an unbounded int with a non-negative shift:
multiplication by `2 ^ n`. -/
def pyShiftL (a : ℤ) (n : ℕ) : ℤ :=
  a * ((2 ^ n : ℕ) : ℤ)

/-- Python `|` on unbounded ints: two's-complement bitwise or.
`Int.negSucc m` represents `-(m+1)`, i.e. the bitwise complement of `m`, so
`NOT m OR n` is the complement of `m AND NOT n`, and `m AND NOT n` is written
with kernel-computable operations as `m ^^^ (m &&& n)`.
`pyOr_eq_lor` below proves this agrees with Mathlib's `Int.lor`. -/
def pyOr : ℤ → ℤ → ℤ
  | .ofNat m, .ofNat n => .ofNat (m ||| n)
  | .ofNat m, .negSucc n => .negSucc (n ^^^ (n &&& m))
  | .negSucc m, .ofNat n => .negSucc (m ^^^ (m &&& n))
  | .negSucc m, .negSucc n => .negSucc (m &&& n)

theorem ldiff_eq_xor_and (m n : ℕ) : Nat.ldiff m n = m ^^^ (m &&& n) := by
  apply Nat.eq_of_testBit_eq
  intro i
  rw [Nat.ldiff, Nat.testBit_bitwise (by rfl), Nat.testBit_xor, Nat.testBit_and]
  cases m.testBit i <;> cases n.testBit i <;> rfl

/-- `pyOr` is exactly Mathlib's two's-complement `Int.lor`. -/
theorem pyOr_eq_lor (a b : ℤ) : pyOr a b = Int.lor a b := by
  cases a <;> cases b <;> simp [pyOr, Int.lor, ldiff_eq_xor_and]

/-! ### SynthesisEngine (`NAT64Resolver.resolve`, nat64dns.py lines 200–268) -/

/-- Configuration constant `NAT64_SUFFIX = "nat64"`. -/
def NAT64_SUFFIX : String := "nat64"

/-- `int(ipaddress.IPv6Network(BASE_PREFIX + "/96").network_address)` for
`BASE_PREFIX = "64:ff9b:1::"`: groups `0064:ff9b:0001:0:0:0:0:0`, each group 16
bits from the top.  The low 80 bits are zero. -/
def baseInt : ℕ :=
  0x64 * 2 ^ 112 + 0xff9b * 2 ^ 96 + 0x1 * 2 ^ 80

/-- The address-synthesis formula of lines 263–266 on the parsed key, stated on
`ℕ` (all fields in range): `base | (customer_id << 40 | site_id << 32 | ipv4)`. -/
def synthAddr (customer_id site_id ipv4 : ℕ) : ℕ :=
  baseInt ||| ((customer_id <<< 40 ||| site_id <<< 32) ||| ipv4)

/-- An exception escaping `resolve` to its caller. -/
inductive PyErr where
  | addressValueError
deriving DecidableEq

/-- `ipaddress.IPv6Address(final_int)` (line 268, not inside any `try`):
returns the 128-bit value, raising `AddressValueError` when the integer is
negative or too large. -/
def mkIPv6Address (i : ℤ) : Except PyErr (Option ℕ) :=
  if 0 ≤ i ∧ i < ((2 ^ 128 : ℕ) : ℤ) then .ok (some i.toNat)
  else .error .addressValueError

/-- Python `s.startswith('t')`. -/
def startsWithT : List Char → Bool
  | 't' :: _ => true
  | _ => false

/-- Python `c` in `ipv4_part_str.replace("-", ".")`. -/
def dashToDot (c : Char) : Char :=
  if c == '-' then '.' else c

/-- Lines 237–268 of `NAT64Resolver.resolve`, after the labels have been
assigned: optional `t` strip on the customer label, `int(·, 16)` parses with
range checks (note a negative id passes the `>` checks), IPv4 literal parse,
then the bitwise construction and `IPv6Address` call. -/
def resolveCore (ipv4_part_str customer_id_str0 site_id_str : List Char) :
    Except PyErr (Option ℕ) :=
  let customer_id_str :=
    if startsWithT customer_id_str0 then customer_id_str0.drop 1
    else customer_id_str0
  match pyIntHex customer_id_str with
  | none => .ok none
  | some customer_id =>
    if customer_id > 0xFFFFFF then .ok none
    else
      match pyIntHex site_id_str with
      | none => .ok none
      | some site_id =>
        if site_id > 0xFF then .ok none
        else
          match parseIPv4 (ipv4_part_str.map dashToDot) with
          | none => .ok none
          | some ipv4_int =>
            mkIPv6Address
              (pyOr (baseInt : ℤ)
                (pyOr (pyOr (pyShiftL customer_id 40) (pyShiftL site_id 32))
                  (ipv4_int : ℤ)))

/-- The cleaned query name of line 206: `qname_str.lower().rstrip(".")`. -/
def cleanQname (qname_str : String) : List Char :=
  rstripDots (qname_str.data.map Char.toLower)

/-- `NAT64Resolver.resolve(qname_str)` (lines 201–268).  `Except` models a
Python exception escaping to the caller; `.ok none` is the no-match result.
The suffix test of line 207 is `str.endswith` on the raw string; line 211
removes `len(NAT64_SUFFIX) + 1` characters; the label split and the
`t`-marker disambiguation follow lines 212–235 (2 labels: customer is the
last label and the site id defaults to `"0"`; 3 labels: the `t`-marked label
is the customer id, and if neither is marked the last label is the customer
id and the middle one the site id). -/
def resolve (qname_str : String) : Except PyErr (Option ℕ) :=
  let clean_qname := cleanQname qname_str
  if ¬ (NAT64_SUFFIX.data.isSuffixOf clean_qname) then .ok none
  else
    let content := clean_qname.take (clean_qname.length - (NAT64_SUFFIX.length + 1))
    match splitOnChar '.' content with
    | [p0, p1] => resolveCore p0 p1 ['0']
    | [p0, p1, p2] =>
      if startsWithT p1 then resolveCore p0 (p1.drop 1) p2
      else if startsWithT p2 then resolveCore p0 (p2.drop 1) p1
      else resolveCore p0 p2 p1
    | _ => .ok none


/-! ### PrefixStore (`load_nat64_prefix_async` / `_read_and_parse`,
nat64dns.py lines 114–198 and 312–319)

The file system is abstracted as explicit functions (`os.path.realpath`,
`os.stat` modification time, the opened file's lines); the
`ipaddress.IPv6Network` text parser is an explicit parameter (the validated
network value is all the store uses).  The thread pool delivers the
semaphore-acquire outcome as the boolean `acquired`. -/

/-- An IPv6 network value as produced by `ipaddress.IPv6Network(s, strict=False)`:
its `network_address` as an integer and its prefix length. -/
structure IPv6Net where
  networkAddress : ℕ
  prefixlen : ℕ
deriving DecidableEq

/-- The file-system boundary: `realpath` resolves symlinks, `mtime` is
`os.stat(p).st_mtime` (`none` = `FileNotFoundError`), `lines` is the content of
the file opened at a real path (`none` = `FileNotFoundError` on `open`). -/
structure FS where
  realpath : String → String
  mtime : String → Option ℕ
  lines : String → Option (List String)

/-- The `_NAT64_CACHE` dictionary (line 316): fields `net`, `raw`, `mtime`,
`path`, all initially `None`. -/
structure NAT64Cache where
  net : Option IPv6Net
  raw : Option String
  mtime : Option ℕ
  path : Option String
deriving DecidableEq

/-- Configuration constant `NAT64_PREFIX_FILE`. -/
def NAT64_PREFIX_FILE : String := "/etc/tayga/default.conf"

/-- POSIX `os.path.dirname`: everything before the final `/`, with trailing
slashes stripped unless the result is all slashes. -/
def os_path_dirname (p : String) : String :=
  let head := ((p.data.reverse.dropWhile (· != '/')).reverse)
  if head.isEmpty ∨ head.all (· == '/') then ⟨head⟩
  else ⟨(head.reverse.dropWhile (· == '/')).reverse⟩


/-- Python `real_path.startswith(allowed_dir)` (line 132): a raw string-prefix
test. -/
def pyStartsWith (s t : String) : Bool :=
  t.data.isPrefixOf s.data

/-- Outcome of the line scan of lines 152–174. -/
inductive ScanResult where
  | noPrefixLine
  | invalidPrefix
  | found (raw : String) (net : IPv6Net)
deriving DecidableEq

/-- The `for line in f` loop (lines 153–172): strip each line, skip blank and
`#` lines; on the first line starting with `prefix` that whitespace-splits
into at least two tokens, validate the second token as an IPv6 network —
invalid text returns `None` at once, a valid one is the result.  A `prefix`
line with fewer than two tokens is skipped and the scan continues. -/
def scanLines (parse6 : String → Option IPv6Net) : List String → ScanResult
  | [] => .noPrefixLine
  | l :: rest =>
    let line := pyStrip l.data
    if line.isEmpty then scanLines parse6 rest
    else if ("#".data).isPrefixOf line then scanLines parse6 rest
    else if ("prefix".data).isPrefixOf line then
      match pySplitWs line with
      | _ :: p :: _ =>
        match parse6 ⟨p⟩ with
        | none => .invalidPrefix
        | some net => .found ⟨p⟩ net
      | _ => scanLines parse6 rest
    else scanLines parse6 rest

/-- Result of one `_read_and_parse` call: the returned value (`none` =
unavailable), the cache afterwards, and whether `open` was reached. -/
structure ReadResult where
  result : Option String
  cache : NAT64Cache
  openedFile : Bool
deriving DecidableEq

/-- `_read_and_parse` (lines 124–185).  `acquired` is the outcome of
`_THREAD_FILE_SEMAPHORE.acquire(timeout=5)` (line 126); the source consults it
only in the `finally` release, never before reading, so the body does not
depend on it.  Then: resolve the real path, refuse if it does not start with
the resolved parent directory (lines 129–134); stat for the modification time
(`None` when missing, lines 137–141); under the lock return the cached raw
text when the cache holds a network whose path and known modification time
match (lines 143–149); otherwise open and scan the file, updating all four
cache fields on a successfully validated `prefix` line (lines 151–174). -/
def read_and_parse (parse6 : String → Option IPv6Net) (fs : FS)
    (acquired : Bool) (cache : NAT64Cache) : ReadResult :=
  let real_path := fs.realpath NAT64_PREFIX_FILE
  let allowed_dir := fs.realpath (os_path_dirname NAT64_PREFIX_FILE)
  if ¬ pyStartsWith real_path allowed_dir then ⟨none, cache, false⟩
  else
    let mtime := fs.mtime real_path
    if cache.net.isSome ∧ cache.path = some real_path ∧
        cache.mtime = mtime ∧ mtime.isSome then
      ⟨cache.raw, cache, false⟩
    else
      match fs.lines real_path with
      | none => ⟨none, cache, true⟩
      | some ls =>
        match scanLines parse6 ls with
        | .noPrefixLine => ⟨none, cache, true⟩
        | .invalidPrefix => ⟨none, cache, true⟩
        | .found raw net => ⟨some raw, ⟨some net, some raw, mtime, some real_path⟩, true⟩

/-! ### DNS64Synthesizer (`resolve_upstream_dns64`, nat64dns.py lines 271–309)

The upstream reply is the codec-boundary input: `none` when
`query_upstream_async` returned no datagram, otherwise the parsed reply's
resource records.  For an A record the codec guarantees `str(rr.rdata)` is its
dotted-quad text, so `rdata` carries the record's integer value directly. -/

/-- `QTYPE.A`. -/
def QTYPE_A : ℕ := 1

/-- `QTYPE.AAAA`. -/
def QTYPE_AAAA : ℕ := 28

/-- A resource record of the upstream reply. -/
structure RR where
  rtype : ℕ
  rdata : ℕ
deriving DecidableEq

/-- The `for rr in upstream_reply.rr` loop (lines 297–303): per A-type record,
append `prefix_int | (ipv4 & 0xFFFFFFFF)` in record order. -/
def synthLoop (prefix_int : ℕ) : List RR → List ℕ
  | [] => []
  | rr :: rest =>
    if rr.rtype = QTYPE_A then
      (prefix_int ||| (rr.rdata &&& 0xFFFFFFFF)) :: synthLoop prefix_int rest
    else synthLoop prefix_int rest

/-- `resolve_upstream_dns64(qname, nat64_net)` (lines 271–309), with the
upstream exchange abstracted into `reply`: no reply gives `[]`; with a reply,
reject a prefix with fewer than `32` host bits (`128 - prefixlen < 32`),
otherwise synthesize one address per A record. -/
def resolve_upstream_dns64 (reply : Option (List RR)) (nat64_net : IPv6Net) :
    List ℕ :=
  match reply with
  | none => []
  | some rrs =>
    let prefix_int := nat64_net.networkAddress
    let host_bits := 128 - nat64_net.prefixlen
    if host_bits < 32 then []
    else synthLoop prefix_int rrs

/-! ### Dispatcher (`DNSServerProtocol.handle_request`, nat64dns.py lines
322–393)

One inbound datagram: the wire parse outcome (`none` = `DNSRecord.parse`
raised), the prefix-store outcome and the upstream reply are the boundary
inputs; the output is the list of datagrams sent (the source's single
`sendto`, or nothing when the catch-all `except` of line 392 swallows an
error). -/

/-- A parsed inbound request: transaction id, question name and type. -/
structure DNSRequest where
  id : ℕ
  qname : String
  qtype : ℕ
deriving DecidableEq

/-- One answer record of a reply. -/
structure Answer where
  rname : String
  rtype : ℕ
  ttl : ℕ
  rdata : ℕ
deriving DecidableEq

/-- A reply datagram: echoed transaction id, rcode, answers. -/
structure Reply where
  id : ℕ
  rcode : ℕ
  answers : List Answer
deriving DecidableEq

/-- `handle_request` (lines 330–393) as the list of reply datagrams sent.
A failed wire parse reaches the catch-all `except` before any reply is built;
an AAAA query first tries `resolver.resolve` — whose uncaught exception also
lands in the catch-all `except`, sending nothing — then falls back to DNS64
synthesis (TTL 60) or an empty-answer success reply; non-AAAA queries get an
empty success reply. -/
def handle_request (parsed : Option DNSRequest) (prefixRes : Option IPv6Net)
    (upstream : Option (List RR)) : List Reply :=
  match parsed with
  | none => []
  | some req =>
    if req.qtype = QTYPE_AAAA then
      match resolve req.qname with
      | .error _ => []
      | .ok (some ip) => [⟨req.id, 0, [⟨req.qname, QTYPE_AAAA, 300, ip⟩]⟩]
      | .ok none =>
        match prefixRes with
        | none => [⟨req.id, 0, []⟩]
        | some net =>
          match resolve_upstream_dns64 upstream net with
          | [] => [⟨req.id, 0, []⟩]
          | ip :: ips =>
            [⟨req.id, 0, (ip :: ips).map (fun a => ⟨req.qname, QTYPE_AAAA, 60, a⟩)⟩]
    else [⟨req.id, 0, []⟩]

/-! ### Concrete fixtures

Closed instantiations of the abstract boundaries, used by witness and
counterexample theorems. -/

/-- A network-literal parser fixture recognising the one literal the fixtures
use. -/
def parse6Fix : String → Option IPv6Net :=
  fun s => if s = "64:ff9b:1::/96" then some ⟨baseInt, 96⟩ else none

/-- A healthy file system: no symlinks, the prefix file exists with a comment
line and a valid `prefix` line. -/
def fsGood : FS where
  realpath := fun s => s
  mtime := fun _ => some 1
  lines := fun s =>
    if s = NAT64_PREFIX_FILE then some ["# tayga", "prefix 64:ff9b:1::/96"]
    else none

/-- A file system where the configured path is a symlink to a sibling
directory `/etc/tayga-evil` that shares `/etc/tayga` as a string prefix. -/
def fsEvil : FS where
  realpath := fun s =>
    if s = NAT64_PREFIX_FILE then "/etc/tayga-evil/default.conf" else s
  mtime := fun _ => some 1
  lines := fun s =>
    if s = "/etc/tayga-evil/default.conf" then some ["prefix 64:ff9b:1::/96"]
    else none

/-- A file system where the configured path resolves far outside its parent
directory. -/
def fsOutside : FS where
  realpath := fun s =>
    if s = NAT64_PREFIX_FILE then "/var/spool/evil.conf" else s
  mtime := fun _ => some 1
  lines := fun s =>
    if s = "/var/spool/evil.conf" then some ["prefix 64:ff9b:1::/96"] else none

/-- The empty initial cache (line 316). -/
def cacheEmpty : NAT64Cache := ⟨none, none, none, none⟩

/-- A cache entry matching `fsGood`'s path and modification time. -/
def cacheHit : NAT64Cache :=
  ⟨some ⟨baseInt, 96⟩, some "64:ff9b:1::/96", some 1, some NAT64_PREFIX_FILE⟩

/-! ### Spec-side definitions

Written from the specification's words, for comparison with the embedded
code. -/

/-- The final label of the cleaned query name (the spec's "suffix as its final
label"). -/
def lastLabel (q : String) : List Char :=
  (splitOnChar '.' (cleanQname q)).getLastD []

/-- The spec's "lies inside the parent directory", in the path-component
sense: the path equals the directory or extends it past a `/` separator. -/
def pathInsideDir (p dir : String) : Bool :=
  p == dir || ((dir ++ "/").data).isPrefixOf p.data

/-! ### Claim theorems -/

/-- C2 (code bug): `resolve` is not total on its Python-level inputs.  The
hex parser accepts a leading sign, a negative customer id passes the
`> 0xFFFFFF` range check, the two's-complement or keeps the synthesized
integer negative, and the `IPv6Address` call of line 268 — outside every
`try` block — raises `AddressValueError` to the caller instead of folding the
failure into no-match. -/
theorem resolve_raises_on_negative_id :
    resolve "192-0-2-1.t-1.nat64" = .error .addressValueError := by
  decide

/-- C5 counterexample: the claim "only names ending with the suffix label can
resolve" is false.  `192-0-2-1.t10nat64` has final label `t10nat64`, not
`nat64`, yet it resolves: `endswith` is a raw string test and the slice of
line 211 eats one extra character, leaving labels `192-0-2-1` and `t1`. -/
theorem suffix_match_not_label_based :
    lastLabel "192-0-2-1.t10nat64" ≠ NAT64_SUFFIX.data
    ∧ resolve "192-0-2-1.t10nat64" = .ok (some (synthAddr 1 0 0xC0000201)) := by
  exact ⟨by decide, by decide⟩

/-- C5 as amended: the gate of line 207 is a raw string-suffix match: whenever
the cleaned query name does not end with the five characters `nat64`,
`resolve` returns no-match. -/
theorem resolve_requires_suffix_string (q : String)
    (h : NAT64_SUFFIX.data.isSuffixOf (cleanQname q) = false) :
    resolve q = .ok none := by
  simp [resolve, h]

/-- Witness for `resolve_requires_suffix_string` at `example.com`. -/
theorem resolve_requires_suffix_string_witness :
    resolve "example.com" = .ok none :=
  resolve_requires_suffix_string "example.com" (by decide)

/-- C9 (code bug): a wire-parse failure produces no reply (first conjunct, the
claim's true half), but a successfully parsed AAAA query is not guaranteed a
reply either: for qname `192-0-2-1.t-1.nat64` the resolver raises inside
`handle_request`, the catch-all `except` of line 392 swallows it, and no
datagram is sent — refuting "every successfully parsed query produces exactly
one reply". -/
theorem handle_request_reply_counts :
    (∀ (p : Option IPv6Net) (u : Option (List RR)), handle_request none p u = [])
    ∧ handle_request (some ⟨7, "192-0-2-1.t-1.nat64", QTYPE_AAAA⟩) none none = [] := by
  exact ⟨fun _ _ => rfl, by decide⟩

/-- C10: the id labels go through Python `int(s, 16)`, so non-canonical forms
are accepted: `t0x1` resolves and gives the same address as `t1`, and a
leading `+` sign is accepted as well. -/
theorem resolve_accepts_python_hex_forms :
    resolve "192-0-2-1.t0x1.nat64" = resolve "192-0-2-1.t1.nat64"
    ∧ resolve "192-0-2-1.t0x1.nat64" = .ok (some (synthAddr 1 0 0xC0000201))
    ∧ resolve "192-0-2-1.t+1.nat64" = .ok (some (synthAddr 1 0 0xC0000201)) := by
  exact ⟨by decide, by decide, by decide⟩

/-- C3 counterexample: a configured-file state whose symlink-resolved real
path `/etc/tayga-evil/default.conf` lies outside the parent directory
`/etc/tayga`, yet `get` returns that target file's content: line 132's
`startswith` is a raw string-prefix test and the sibling directory shares the
prefix. -/
theorem symlink_check_admits_sibling_dir :
    pathInsideDir "/etc/tayga-evil/default.conf" "/etc/tayga" = false
    ∧ (read_and_parse parse6Fix fsEvil true cacheEmpty).result
        = some "64:ff9b:1::/96" := by
  exact ⟨by decide, by decide⟩

/-- C3 as amended: `get` returns unavailable — touching neither file nor
cache — exactly when the resolved real path does not have the resolved parent
directory as a string prefix.  Resolved paths outside the parent directory
that share it as a string prefix (such as `/etc/tayga-evil/...`) are not
rejected. -/
theorem read_refuses_nonprefix_path (parse6 : String → Option IPv6Net)
    (fs : FS) (acquired : Bool) (cache : NAT64Cache)
    (h : pyStartsWith (fs.realpath NAT64_PREFIX_FILE)
      (fs.realpath (os_path_dirname NAT64_PREFIX_FILE)) = false) :
    read_and_parse parse6 fs acquired cache = ⟨none, cache, false⟩ := by
  simp [read_and_parse, h]

/-- Witness for `read_refuses_nonprefix_path` on a path resolving to
`/var/spool`. -/
theorem read_refuses_nonprefix_path_witness :
    read_and_parse parse6Fix fsOutside true cacheEmpty
      = ⟨none, cacheEmpty, false⟩ :=
  read_refuses_nonprefix_path parse6Fix fsOutside true cacheEmpty (by decide)

/-- C4 (code bug): with the semaphore permit NOT acquired
(`acquire(timeout=5)` returned `False`), `_read_and_parse` still opens and
reads the prefix file and returns its prefix — the source never consults
`acquired` before reading (it only guards the `finally` release), so an
acquire timeout is not treated as unavailable. -/
theorem read_proceeds_without_permit :
    read_and_parse parse6Fix fsGood false cacheEmpty
      = ⟨some "64:ff9b:1::/96",
          ⟨some ⟨baseInt, 96⟩, some "64:ff9b:1::/96", some 1,
            some NAT64_PREFIX_FILE⟩, true⟩ := by
  decide

/-- C6: with the path check passed, a cache entry holding a network whose
path and known modification time both match the current state is returned
as-is without opening the file; in every other state the file is opened, and
a successfully parsed `prefix` line updates all four cache fields. -/
theorem read_and_parse_cache_correct (parse6 : String → Option IPv6Net)
    (fs : FS) (acquired : Bool) (cache : NAT64Cache)
    (hsafe : pyStartsWith (fs.realpath NAT64_PREFIX_FILE)
      (fs.realpath (os_path_dirname NAT64_PREFIX_FILE)) = true) :
    (cache.net.isSome ∧ cache.path = some (fs.realpath NAT64_PREFIX_FILE) ∧
        cache.mtime = fs.mtime (fs.realpath NAT64_PREFIX_FILE) ∧
        (fs.mtime (fs.realpath NAT64_PREFIX_FILE)).isSome →
      read_and_parse parse6 fs acquired cache = ⟨cache.raw, cache, false⟩)
    ∧ (¬ (cache.net.isSome ∧ cache.path = some (fs.realpath NAT64_PREFIX_FILE) ∧
        cache.mtime = fs.mtime (fs.realpath NAT64_PREFIX_FILE) ∧
        (fs.mtime (fs.realpath NAT64_PREFIX_FILE)).isSome) →
      (read_and_parse parse6 fs acquired cache).openedFile = true
      ∧ ∀ ls raw net,
          fs.lines (fs.realpath NAT64_PREFIX_FILE) = some ls →
          scanLines parse6 ls = .found raw net →
          read_and_parse parse6 fs acquired cache
            = ⟨some raw, ⟨some net, some raw,
                fs.mtime (fs.realpath NAT64_PREFIX_FILE),
                some (fs.realpath NAT64_PREFIX_FILE)⟩, true⟩) := by
  simp only [read_and_parse, hsafe, not_true_eq_false, Bool.false_eq_true,
    if_false]
  constructor
  · intro hc
    rw [if_pos hc]
  · intro hc
    rw [if_neg hc]
    constructor
    · cases hls : fs.lines (fs.realpath NAT64_PREFIX_FILE) with
      | none => rfl
      | some ls =>
        cases hsc : scanLines parse6 ls <;> simp [hsc]
    · intro ls raw net hls hsc
      simp [hls, hsc]

/-- Witness for `read_and_parse_cache_correct`: on `fsGood`, a matching cache
entry is returned without a file read, and from the empty cache the file is
read and the cache updated. -/
theorem read_and_parse_cache_correct_witness :
    read_and_parse parse6Fix fsGood true cacheHit
      = ⟨some "64:ff9b:1::/96", cacheHit, false⟩
    ∧ read_and_parse parse6Fix fsGood true cacheEmpty
      = ⟨some "64:ff9b:1::/96",
          ⟨some ⟨baseInt, 96⟩, some "64:ff9b:1::/96", some 1,
            some NAT64_PREFIX_FILE⟩, true⟩ := by
  refine ⟨?_, ?_⟩
  · exact (read_and_parse_cache_correct parse6Fix fsGood true cacheHit
      (by decide)).1 (by decide)
  · exact ((read_and_parse_cache_correct parse6Fix fsGood true cacheEmpty
      (by decide)).2 (by decide)).2
      ["# tayga", "prefix 64:ff9b:1::/96"] "64:ff9b:1::/96" ⟨baseInt, 96⟩
      (by decide) (by decide)

theorem synthLoop_eq_filterMap (prefix_int : ℕ) (rrs : List RR) :
    synthLoop prefix_int rrs
      = rrs.filterMap (fun rr =>
          if rr.rtype = QTYPE_A then some (prefix_int ||| rr.rdata % 2 ^ 32)
          else none) := by
  induction rrs with
  | nil => rfl
  | cons rr rest ih =>
    have hmask : rr.rdata &&& 0xFFFFFFFF = rr.rdata % 2 ^ 32 := by
      have := Nat.and_pow_two_sub_one_eq_mod rr.rdata 32
      norm_num at this ⊢
      exact this
    by_cases h : rr.rtype = QTYPE_A <;>
      simp [synthLoop, List.filterMap_cons, h, ih, hmask]

/-- C7: `synthesize` returns the empty sequence when the upstream query
yields no reply and when the prefix leaves fewer than 32 host bits
(length > 96); otherwise it returns exactly one address per A-type answer
record, `network_address OR (ipv4 mod 2^32)`, in upstream record order. -/
theorem synthesize_spec (net : IPv6Net) (rrs : List RR) :
    resolve_upstream_dns64 none net = []
    ∧ (96 < net.prefixlen → resolve_upstream_dns64 (some rrs) net = [])
    ∧ (net.prefixlen ≤ 96 → resolve_upstream_dns64 (some rrs) net
        = rrs.filterMap (fun rr =>
            if rr.rtype = QTYPE_A
            then some (net.networkAddress ||| rr.rdata % 2 ^ 32) else none)) := by
  refine ⟨rfl, ?_, ?_⟩
  · intro h
    have : 128 - net.prefixlen < 32 := by omega
    simp [resolve_upstream_dns64, this]
  · intro h
    have : ¬ (128 - net.prefixlen < 32) := by omega
    simp [resolve_upstream_dns64, this, synthLoop_eq_filterMap]

/-- Witness for `synthesize_spec`: a 100-bit prefix yields nothing, a 96-bit
prefix maps the single A record. -/
theorem synthesize_spec_witness :
    resolve_upstream_dns64 (some [⟨QTYPE_A, 0xC0000201⟩]) ⟨baseInt, 100⟩ = []
    ∧ resolve_upstream_dns64 (some [⟨QTYPE_A, 0xC0000201⟩, ⟨QTYPE_AAAA, 5⟩])
        ⟨baseInt, 96⟩ = [baseInt ||| 0xC0000201] := by
  refine ⟨?_, ?_⟩
  · exact (synthesize_spec ⟨baseInt, 100⟩ [⟨QTYPE_A, 0xC0000201⟩]).2.1 (by decide)
  · exact ((synthesize_spec ⟨baseInt, 96⟩ _).2.2 (by decide)).trans (by decide)

theorem baseInt_testBit_low {i : ℕ} (h : i < 80) : baseInt.testBit i = false := by
  have h0 : baseInt % 2 ^ 80 = 0 := by decide
  have ht := Nat.testBit_mod_two_pow baseInt 80 i
  rw [h0, Nat.zero_testBit] at ht
  simp [h] at ht
  exact ht

theorem synthAddr_testBit_customer (c s v j : ℕ) (hs : s < 2 ^ 8)
    (hv : v < 2 ^ 32) (hj : j < 24) :
    (synthAddr c s v).testBit (j + 40) = c.testBit j := by
  have hbase : baseInt.testBit (j + 40) = false := baseInt_testBit_low (by omega)
  have hsbit : (s <<< 32).testBit (j + 40) = false := by
    rw [Nat.testBit_shiftLeft]
    have he : j + 40 - 32 = j + 8 := by omega
    rw [he]
    have : s.testBit (j + 8) = false :=
      Nat.testBit_lt_two_pow
        (lt_of_lt_of_le hs (Nat.pow_le_pow_right (by norm_num) (by omega)))
    simp [this]
  have hvbit : v.testBit (j + 40) = false :=
    Nat.testBit_lt_two_pow
      (lt_of_lt_of_le hv (Nat.pow_le_pow_right (by norm_num) (by omega)))
  have hcbit : (c <<< 40).testBit (j + 40) = c.testBit j := by
    rw [Nat.testBit_shiftLeft]
    have he : j + 40 - 40 = j := by omega
    rw [he]
    simp
  simp [synthAddr, Nat.testBit_lor, hbase, hsbit, hvbit, hcbit]

theorem synthAddr_testBit_site (c s v j : ℕ) (hv : v < 2 ^ 32) (hj : j < 8) :
    (synthAddr c s v).testBit (j + 32) = s.testBit j := by
  have hbase : baseInt.testBit (j + 32) = false := baseInt_testBit_low (by omega)
  have hcbit : (c <<< 40).testBit (j + 32) = false := by
    rw [Nat.testBit_shiftLeft]
    have : ¬ (j + 32 ≥ 40) := by omega
    simp [this]
  have hvbit : v.testBit (j + 32) = false :=
    Nat.testBit_lt_two_pow
      (lt_of_lt_of_le hv (Nat.pow_le_pow_right (by norm_num) (by omega)))
  have hsbit : (s <<< 32).testBit (j + 32) = s.testBit j := by
    rw [Nat.testBit_shiftLeft]
    have he : j + 32 - 32 = j := by omega
    rw [he]
    simp
  simp [synthAddr, Nat.testBit_lor, hbase, hcbit, hvbit, hsbit]

/-- C8: field isolation of the synthesized address.  For a fixed IPv4 value
and site id, distinct in-range customer ids give distinct addresses, and for
a fixed IPv4 value and customer id, distinct in-range site ids give distinct
addresses (the 24-bit field at bits 40–63 and the 8-bit field at bits 32–39
never overlap each other, the low 32 bits, or the base). -/
theorem synthAddr_field_isolation :
    (∀ c1 c2 s v, c1 ≤ 0xFFFFFF → c2 ≤ 0xFFFFFF → s ≤ 0xFF → v < 2 ^ 32 →
      c1 ≠ c2 → synthAddr c1 s v ≠ synthAddr c2 s v)
    ∧ (∀ c s1 s2 v, c ≤ 0xFFFFFF → s1 ≤ 0xFF → s2 ≤ 0xFF → v < 2 ^ 32 →
      s1 ≠ s2 → synthAddr c s1 v ≠ synthAddr c s2 v) := by
  constructor
  · intro c1 c2 s v hc1 hc2 hs hv hne heq
    apply hne
    apply Nat.eq_of_testBit_eq
    intro j
    by_cases hj : j < 24
    · have h1 := synthAddr_testBit_customer c1 s v j (by omega) hv hj
      have h2 := synthAddr_testBit_customer c2 s v j (by omega) hv hj
      rw [← h1, ← h2, heq]
    · have hpow : (2 : ℕ) ^ 24 ≤ 2 ^ j := Nat.pow_le_pow_right (by norm_num) (by omega)
      have h24 : (0xFFFFFF : ℕ) < 2 ^ 24 := by norm_num
      have hb1 : c1.testBit j = false :=
        Nat.testBit_lt_two_pow (lt_of_le_of_lt hc1 (lt_of_lt_of_le h24 hpow))
      have hb2 : c2.testBit j = false :=
        Nat.testBit_lt_two_pow (lt_of_le_of_lt hc2 (lt_of_lt_of_le h24 hpow))
      rw [hb1, hb2]
  · intro c s1 s2 v hc hs1 hs2 hv hne heq
    apply hne
    apply Nat.eq_of_testBit_eq
    intro j
    by_cases hj : j < 8
    · have h1 := synthAddr_testBit_site c s1 v j hv hj
      have h2 := synthAddr_testBit_site c s2 v j hv hj
      rw [← h1, ← h2, heq]
    · have hpow : (2 : ℕ) ^ 8 ≤ 2 ^ j := Nat.pow_le_pow_right (by norm_num) (by omega)
      have h8 : (0xFF : ℕ) < 2 ^ 8 := by norm_num
      have hb1 : s1.testBit j = false :=
        Nat.testBit_lt_two_pow (lt_of_le_of_lt hs1 (lt_of_lt_of_le h8 hpow))
      have hb2 : s2.testBit j = false :=
        Nat.testBit_lt_two_pow (lt_of_le_of_lt hs2 (lt_of_lt_of_le h8 hpow))
      rw [hb1, hb2]

/-- Witness for `synthAddr_field_isolation` at concrete keys. -/
theorem synthAddr_field_isolation_witness :
    synthAddr 1 0 0 ≠ synthAddr 2 0 0 ∧ synthAddr 0 1 0 ≠ synthAddr 0 2 0 :=
  ⟨synthAddr_field_isolation.1 1 2 0 0 (by norm_num) (by norm_num)
      (by norm_num) (by norm_num) (by norm_num),
    synthAddr_field_isolation.2 0 1 2 0 (by norm_num) (by norm_num)
      (by norm_num) (by norm_num) (by norm_num)⟩

theorem pyOr_neg_left {a : ℤ} (b : ℤ) (h : a < 0) : pyOr a b < 0 := by
  cases a with
  | ofNat m => exact absurd h (Int.not_lt.mpr (Int.ofNat_nonneg m))
  | negSucc m =>
    cases b with
    | ofNat n => exact Int.negSucc_lt_zero _
    | negSucc n => exact Int.negSucc_lt_zero _

theorem pyOr_neg_right {b : ℤ} (a : ℤ) (h : b < 0) : pyOr a b < 0 := by
  cases b with
  | ofNat n => exact absurd h (Int.not_lt.mpr (Int.ofNat_nonneg n))
  | negSucc n =>
    cases a with
    | ofNat m => exact Int.negSucc_lt_zero _
    | negSucc m => exact Int.negSucc_lt_zero _

theorem pyOr_natCast (m n : ℕ) : pyOr (m : ℤ) (n : ℤ) = ((m ||| n : ℕ) : ℤ) :=
  rfl

theorem pyShiftL_natCast (m n : ℕ) :
    pyShiftL (m : ℤ) n = ((m <<< n : ℕ) : ℤ) := by
  simp [pyShiftL, Nat.shiftLeft_eq]

theorem parseOctet_le {cs : List Char} {v : ℕ} (h : parseOctet cs = some v) :
    v ≤ 255 := by
  cases cs with
  | nil => simp [parseOctet] at h
  | cons c rest =>
    simp only [parseOctet] at h
    split at h
    · simp at h
    · split at h
      · simp at h
      · split at h
        · simp at h
        · split at h
          · simp at h
          · injection h with h
            omega

theorem parseIPv4_lt {cs : List Char} {v : ℕ} (h : parseIPv4 cs = some v) :
    v < 2 ^ 32 := by
  unfold parseIPv4 at h
  split at h
  · split at h
    · next oa ob oc od ha hb hc hd =>
      injection h with h
      have h1 := parseOctet_le ha
      have h2 := parseOctet_le hb
      have h3 := parseOctet_le hc
      have h4 := parseOctet_le hd
      omega
    · simp at h
  · simp at h

theorem resolveCore_ok {p0 c0 s0 : List Char} {a : ℕ}
    (h : resolveCore p0 c0 s0 = .ok (some a)) :
    ∃ c s v, c ≤ 0xFFFFFF ∧ s ≤ 0xFF ∧ v < 2 ^ 32 ∧ a = synthAddr c s v := by
  simp only [resolveCore] at h
  split at h
  · simp at h
  · next ci hci =>
    split at h
    · simp at h
    · next hcle =>
      split at h
      · simp at h
      · next si hsi =>
        split at h
        · simp at h
        · next hsle =>
          split at h
          · simp at h
          · next v hv =>
            simp only [mkIPv6Address] at h
            split at h
            · next hcond =>
              injection h with h
              injection h with h
              obtain ⟨hge, hlt⟩ := hcond
              have hcnn : 0 ≤ ci := by
                by_contra hneg
                push_neg at hneg
                have hsh : pyShiftL ci 40 < 0 :=
                  mul_neg_of_neg_of_pos hneg (by positivity)
                have := pyOr_neg_right (baseInt : ℤ)
                  (pyOr_neg_left ((v : ℕ) : ℤ) (pyOr_neg_left (pyShiftL si 32) hsh))
                omega
              have hsnn : 0 ≤ si := by
                by_contra hneg
                push_neg at hneg
                have hsh : pyShiftL si 32 < 0 :=
                  mul_neg_of_neg_of_pos hneg (by positivity)
                have := pyOr_neg_right (baseInt : ℤ)
                  (pyOr_neg_left ((v : ℕ) : ℤ) (pyOr_neg_right (pyShiftL ci 40) hsh))
                omega
              obtain ⟨cN, rfl⟩ := Int.eq_ofNat_of_zero_le hcnn
              obtain ⟨sN, rfl⟩ := Int.eq_ofNat_of_zero_le hsnn
              refine ⟨cN, sN, v, ?_, ?_, parseIPv4_lt hv, ?_⟩
              · exact_mod_cast Int.not_lt.mp hcle
              · exact_mod_cast Int.not_lt.mp hsle
              · rw [pyShiftL_natCast, pyShiftL_natCast, pyOr_natCast,
                  pyOr_natCast, pyOr_natCast, Int.toNat_natCast] at h
                exact h.symm
            · simp at h

/-- C1: every address `resolve` returns is the formula value
`base_prefix_network | (customer_id << 40 | site_id << 32 | ipv4)` for some
in-range key, and on `192-0-2-1.t000001.0.nat64` it is exactly the formula's
value for customer id 1, site id 0, ipv4 `192.0.2.1`. -/
theorem resolve_formula :
    (∀ (q : String) (a : ℕ), resolve q = .ok (some a) →
      ∃ c s v, c ≤ 0xFFFFFF ∧ s ≤ 0xFF ∧ v < 2 ^ 32 ∧ a = synthAddr c s v)
    ∧ resolve "192-0-2-1.t000001.0.nat64" = .ok (some (synthAddr 1 0 0xC0000201)) := by
  constructor
  · intro q a h
    simp only [resolve] at h
    split at h
    · simp at h
    · split at h
      · exact resolveCore_ok h
      · split at h
        · exact resolveCore_ok h
        · split at h
          · exact resolveCore_ok h
          · exact resolveCore_ok h
      · simp at h
  · decide

/-- Witness for `resolve_formula`: its hypothesis holds at the literal
example, discharged by the theorem's own second half. -/
theorem resolve_formula_witness :
    ∃ c s v, c ≤ 0xFFFFFF ∧ s ≤ 0xFF ∧ v < 2 ^ 32 ∧
      synthAddr 1 0 0xC0000201 = synthAddr c s v :=
  resolve_formula.1 "192-0-2-1.t000001.0.nat64" _ resolve_formula.2

end Nat64
